import Mathlib

/-!
Verification of the `get-rust` installer (src/main.rs) against its design
specification.  The development shallowly embeds the identifier model, the
host detector and the install pipeline.  Compiled-in platform facts
(`std::env::consts::ARCH`/`OS`, the `rumprun` cfg flag) and the outcomes of
the external capabilities (HTTP fetch, tar unpack, process spawn) are
passed as explicit parameters, so every theorem quantifies over the hosts
and environments the program can run in.
-/

namespace GetRust

/-- The architecture enumeration, `LIST_ARCHS` in src/main.rs. -/
def LIST_ARCHS : List String := [
  "i386", "i586", "i686", "x86_64", "arm", "armv7", "armv7s", "aarch64",
  "mips", "mipsel", "mips64", "mips64el", "powerpc", "powerpc64",
  "powerpc64le", "riscv64gc", "s390x", "loongarch64"]

/-- The OS-family enumeration, `LIST_OSES` in src/main.rs. -/
def LIST_OSES : List String := [
  "pc-windows", "unknown-linux", "apple-darwin", "unknown-netbsd",
  "apple-ios", "linux", "rumprun-netbsd", "unknown-freebsd",
  "unknown-illumos"]

/-- The environment/ABI enumeration, `LIST_ENVS` in src/main.rs. -/
def LIST_ENVS : List String := [
  "gnu", "gnux32", "msvc", "gnueabi", "gnueabihf", "gnuabi64",
  "androideabi", "android", "musl"]

/-- `struct TargetTriple`: three optional string fields. -/
structure TargetTriple where
  arch : Option String
  os : Option String
  env : Option String
deriving DecidableEq, Repr

namespace TargetTriple

/-- `TargetTriple::str`: builds the rendered string by successive pushes,
starting from the empty string; a `-` is pushed before `os` and before
`env` whenever the field is present. -/
def str (t : TargetTriple) : String :=
  let s := match t.arch with
    | some arch => arch
    | none => ""
  let s := match t.os with
    | some os => s ++ "-" ++ os
    | none => s
  let s := match t.env with
    | some env => s ++ "-" ++ env
    | none => s
  s

/-- `TargetTriple::new`. -/
def new (arch os env : Option String) : TargetTriple :=
  { arch := arch, os := os, env := env }

/-- `TargetTriple::from_target_triple`: split the input on `-` (Rust
`str::split('-')`, rendered here as `List.splitOn` on the character data)
and take the first three segments in order. -/
def from_target_triple (triple : String) : TargetTriple :=
  let parts := (triple.data.splitOn '-').map String.mk
  { arch := parts[0]?, os := parts[1]?, env := parts[2]? }

/-- `TargetTriple::is_valid`: each present field must belong to its
enumeration (the Rust early-returns `false` on the first present field
outside its list, else returns `true`). -/
def is_valid (t : TargetTriple) : Bool :=
  t.arch.all (fun arch => LIST_ARCHS.contains arch) &&
  t.os.all (fun os => LIST_OSES.contains os) &&
  t.env.all (fun env => LIST_ENVS.contains env)

/-- The OS-family lookup inside `get_with_no_rust_installed`
(`os_matching` in src/main.rs); `rumprun` is the `cfg!(target_os =
"rumprun")` compile-time fact. -/
def os_matching (os : String) (rumprun : Bool) : String :=
  match os with
  | "linux" => "unknown-linux"
  | "macos" => "apple-darwin"
  | "windows" => "pc-windows"
  | "netbsd" => if rumprun then "rumprun-netbsd" else "unknown-netbsd"
  | "ios" => "apple-ios"
  | "freebsd" => "unknown-freebsd"
  | "illumos" => "unknown-illumos"
  | _ => "unknown"

/-- The environment lookup inside `get_with_no_rust_installed` (`env` in
src/main.rs), keyed by OS name with a nested lookup on the architecture
for Linux. -/
def env_matching (os arch : String) : String :=
  match os with
  | "windows" => "msvc"
  | "linux" =>
    match arch with
    | "x86_64" => "gnu"
    | "x86" => "gnu"
    | "aarch64" => "gnu"
    | "arm" => "gnueabi"
    | "armv7" => "gnueabihf"
    | "armv7s" => "gnueabihf"
    | "mips" => "gnu"
    | "mipsel" => "gnu"
    | "mips64" => "gnuabi64"
    | "mips64el" => "gnuabi64"
    | "powerpc" => "gnu"
    | "powerpc64" => "gnu"
    | "powerpc64le" => "gnu"
    | "riscv64gc" => "gnu"
    | "s390x" => "gnu"
    | "loongarch64" => "gnu"
    | _ => "gnu"
  | "solaris" => "gnu"
  | "macos" => "gnu"
  | "netbsd" => "gnu"
  | "ios" => "gnu"
  | "freebsd" => "gnu"
  | "illumos" => "gnu"
  | _ => "failed"

/-- `TargetTriple::get_with_no_rust_installed`, the host detector.  The
compiled-in facts `std::env::consts::ARCH`, `std::env::consts::OS` and the
`rumprun` cfg flag are parameters of the embedding. -/
def get_with_no_rust_installed (arch os : String) (rumprun : Bool) : TargetTriple :=
  new (some arch) (some (os_matching os rumprun)) (some (env_matching os arch))

end TargetTriple

/-- The download URL, `format!("https://static.rust-lang.org/dist/rust-{}-{}.tar.gz", version, target)`. -/
def download_url (version target : String) : String :=
  "https://static.rust-lang.org/dist/rust-" ++ version ++ "-" ++ target ++ ".tar.gz"

/-- The extraction directory, `format!("rust-{}-{}", version, triple.str())`. -/
def unpack_dir (version target : String) : String :=
  "rust-" ++ version ++ "-" ++ target

/-- The spawned installer path,
`format!("rust-{}-{}/rust-{0}-{1}/install.sh", version, triple.str())`
(the positional arguments `{0}`/`{1}` repeat the version and the rendered
triple). -/
def installer_path (version target : String) : String :=
  "rust-" ++ version ++ "-" ++ target ++ "/rust-" ++ version ++ "-" ++
    target ++ "/install.sh"

deriving instance DecidableEq for Except

/-- The HTTP response as the pipeline sees it.  `reqwest::get` resolves to
`Ok` for any response actually received from the server — the status code,
2xx or not, is carried inside (`error_for_status` is never called) — and
to `Err` only on a transport-level failure of the request itself.
Reading the body (`.bytes()`) is itself fallible. -/
structure Response where
  status : Nat
  bytes : Except Unit (List Nat)
deriving DecidableEq, Repr

/-- Outcomes of the external capabilities for one run: the fetch result,
whether `archive.unpack` succeeds on the fetched bytes, and whether the
installer child process can be spawned. -/
structure PipelineEnv where
  fetch : Except Unit Response
  unpack : Except Unit Unit
  spawn : Except Unit Unit
deriving DecidableEq, Repr

/-- Observable side effects of a run. -/
inductive Effect where
  | fetched (url : String)
  | unpacked (dir : String)
  | spawned (path : String)
deriving DecidableEq, Repr

/-- How a run terminates: `finished` is an ordinary return after
`pb.finish()` (for the two failure messages and for "Done"); `panicked`
is an `unwrap()` on an `Err` value — a process-level fault. -/
inductive Outcome where
  | finished (msg : String)
  | panicked
deriving DecidableEq, Repr

/-- What one run produced: the status messages set in order, the side
effects attempted, and how the run terminated. -/
structure RunResult where
  messages : List String
  effects : List Effect
  outcome : Outcome
deriving DecidableEq, Repr

/-- `install_rust`: the install pipeline.  Mirrors the statement sequence
of src/main.rs lines 190-256: fetch the URL; on `Err` report
"Failed to download" and return; otherwise `unwrap()` the body bytes
(panicking on a body-read failure), gunzip + `unpack().unwrap()`
(panicking on extraction failure), then spawn `install.sh`, reporting
"Failed to run install.sh" on a spawn error and "Done" otherwise. -/
def install_rust (triple : TargetTriple) (version : String)
    (env : PipelineEnv) : RunResult :=
  let target := triple.str
  let msgs := ["Installing Rust for target: " ++ target, "Downloading..."]
  let effects := [Effect.fetched (download_url version target)]
  match env.fetch with
  | .error _ =>
    { messages := msgs ++ ["Failed to download"], effects := effects,
      outcome := .finished "Failed to download" }
  | .ok response =>
    let msgs := msgs ++ ["Unwrapping..."]
    match response.bytes with
    | .error _ => { messages := msgs, effects := effects, outcome := .panicked }
    | .ok _ =>
      let msgs := msgs ++ ["Extracting...", "Unpacking..."]
      let effects := effects ++ [Effect.unpacked (unpack_dir version triple.str)]
      match env.unpack with
      | .error _ => { messages := msgs, effects := effects, outcome := .panicked }
      | .ok _ =>
        let msgs := msgs ++ ["Running install.sh..."]
        let effects := effects ++ [Effect.spawned (installer_path version triple.str)]
        match env.spawn with
        | .error _ =>
          { messages := msgs ++ ["Failed to run install.sh"], effects := effects,
            outcome := .finished "Failed to run install.sh" }
        | .ok _ =>
          { messages := msgs ++ ["Done"], effects := effects,
            outcome := .finished "Done" }

/-- Spec-side definition (§3 invariant): the list of the present fields of
an identifier, in order. -/
def presentFields (t : TargetTriple) : List String :=
  t.arch.toList ++ t.os.toList ++ t.env.toList

/-- Spec-side definition (§3 invariant): hyphen-join a list of fields —
the canonical `architecture[-osFamily[-environment]]` form, skipping
absent fields. -/
def hyphenJoin : List String → String
  | [] => ""
  | [s] => s
  | s :: rest => s ++ "-" ++ hyphenJoin rest

/-! ## Claims about rendering and parsing -/

/-- C2 (amended): `str` renders the hyphen-join of the present fields,
except that a hyphen is pushed before `os` and before `env` unconditionally
whenever the field is present; hence an identifier whose architecture is
absent while another field is present renders with a leading hyphen, and in
every other case the rendering is exactly the canonical hyphen-joined form
with no leading, trailing or doubled hyphen introduced. -/
theorem C2_render_eq_hyphenJoin_up_to_leading_hyphen (t : TargetTriple) :
    t.str = if t.arch = none ∧ (t.os.isSome ∨ t.env.isSome)
      then "-" ++ hyphenJoin (presentFields t)
      else hyphenJoin (presentFields t) := by
  obtain ⟨a, o, e⟩ := t
  cases a <;> cases o <;> cases e <;>
    simp [TargetTriple.str, presentFields, hyphenJoin, String.append_assoc]

/-- C2 counterexample: the identifier with architecture absent and osFamily
`"unknown-linux"` present renders as `"-unknown-linux"` — a leading hyphen,
not the hyphen-join of the present fields. -/
theorem C2_counterexample_leading_hyphen :
    TargetTriple.str { arch := none, os := some "unknown-linux", env := none } =
      "-unknown-linux" ∧
    TargetTriple.str { arch := none, os := some "unknown-linux", env := none } ≠
      hyphenJoin (presentFields { arch := none, os := some "unknown-linux", env := none }) ∧
    ("-unknown-linux" : String).data.head? = some '-' := by
  refine ⟨rfl, ?_, rfl⟩
  decide

/-- C3: for any three hyphen-free segments, rendering the parse of their
hyphen-join reproduces the input exactly; and the four-segment input
`"x86_64-unknown-linux-gnu"` parses to `{x86_64, unknown, linux}`, dropping
the fourth segment, so that round trip fails. -/
theorem C3_roundtrip_three_segments :
    (∀ a b c : String, '-' ∉ a.data → '-' ∉ b.data → '-' ∉ c.data →
      (TargetTriple.from_target_triple (a ++ "-" ++ b ++ "-" ++ c)).str =
        a ++ "-" ++ b ++ "-" ++ c) ∧
    TargetTriple.from_target_triple "x86_64-unknown-linux-gnu" =
      { arch := some "x86_64", os := some "unknown", env := some "linux" } := by
  constructor
  · intro a b c ha hb hc
    have hdata : (a ++ "-" ++ b ++ "-" ++ c).data =
        ([('-' : Char)]).intercalate [a.data, b.data, c.data] := by
      simp [List.intercalate, String.data_append,
        show ("-" : String).data = [('-' : Char)] from rfl]
    have hsplit : ((a ++ "-" ++ b ++ "-" ++ c).data.splitOn '-') =
        [a.data, b.data, c.data] := by
      rw [hdata]
      refine List.splitOn_intercalate [a.data, b.data, c.data] '-' ?_ (by simp)
      intro l hl
      simp only [List.mem_cons, List.not_mem_nil, or_false] at hl
      rcases hl with h | h | h <;> subst h <;> assumption
    have hparse : TargetTriple.from_target_triple (a ++ "-" ++ b ++ "-" ++ c) =
        { arch := some a, os := some b, env := some c } := by
      simp only [TargetTriple.from_target_triple, hsplit]
      rfl
    rw [hparse]
    rfl
  · rfl

/-- C3 witness: the round-trip law applied to the concrete hyphen-free
segments `x86_64`, `unknown`, `linux`. -/
theorem C3_roundtrip_witness :
    (TargetTriple.from_target_triple ("x86_64" ++ "-" ++ "unknown" ++ "-" ++ "linux")).str =
      "x86_64" ++ "-" ++ "unknown" ++ "-" ++ "linux" :=
  C3_roundtrip_three_segments.1 "x86_64" "unknown" "linux"
    (by decide) (by decide) (by decide)

/-- C9: parsing splits the input on `-` and assigns the first three
segments, in order, to (architecture, osFamily, environment): for any
nonempty list of hyphen-free segments, parsing their hyphen-join yields
exactly segments 0, 1 and 2 via the (total) list lookup — any segment
beyond the third is ignored and fewer than three segments leave the
trailing fields `none`; moreover on every input the architecture field is
present (the split of any string is nonempty) and parsing is a total
function — it never fails. -/
theorem C9_parse_splits_first_three :
    (∀ segs : List (List Char), (∀ l ∈ segs, '-' ∉ l) → segs ≠ [] →
      TargetTriple.from_target_triple (String.mk (List.intercalate [('-' : Char)] segs)) =
        { arch := (segs.map String.mk)[0]?, os := (segs.map String.mk)[1]?,
          env := (segs.map String.mk)[2]? }) ∧
    (∀ s : String, (TargetTriple.from_target_triple s).arch.isSome = true) := by
  constructor
  · intro segs hx hne
    have hsplit : (String.mk (List.intercalate [('-' : Char)] segs)).data.splitOn '-' = segs :=
      List.splitOn_intercalate segs '-' hx hne
    simp only [TargetTriple.from_target_triple, hsplit]
  · intro s
    simp only [TargetTriple.from_target_triple]
    have hne : s.data.splitOn '-' ≠ [] := List.splitOnP_ne_nil _ s.data
    cases h : s.data.splitOn '-' with
    | nil => exact absurd h hne
    | cons hd tl => simp [h]

/-- C9 witness: parsing the four hyphen-free segments `x`, `y`, `z`, `w`
keeps the first three and drops the fourth. -/
theorem C9_parse_witness :
    TargetTriple.from_target_triple
        (String.mk (List.intercalate [('-' : Char)] [['x'], ['y'], ['z'], ['w']])) =
      { arch := ([['x'], ['y'], ['z'], ['w']].map String.mk)[0]?,
        os := ([['x'], ['y'], ['z'], ['w']].map String.mk)[1]?,
        env := ([['x'], ['y'], ['z'], ['w']].map String.mk)[2]? } :=
  C9_parse_splits_first_three.1 [['x'], ['y'], ['z'], ['w']] (by decide) (by decide)

/-! ## Claims about the host detector -/

/-- The OS names recognized by the OS-family lookup (the non-default match
arms of `os_matching`). -/
def OS_TABLE_KEYS : List String :=
  ["linux", "macos", "windows", "netbsd", "ios", "freebsd", "illumos"]

/-- The OS names recognized by the environment lookup (the non-default
match arms of `env_matching`). -/
def ENV_TABLE_KEYS : List String :=
  ["windows", "linux", "solaris", "macos", "netbsd", "ios", "freebsd", "illumos"]

/-- C4: the host detector is total and always returns an identifier with
all three fields present; on Linux/x86_64 it yields
`{x86_64, unknown-linux, gnu}`; on Linux/arm the environment is
`gnueabi` and on Linux/armv7 it is `gnueabihf` (whatever the state of the
rumprun flag). -/
theorem C4_detector_total_and_linux_cases :
    (∀ arch os rumprun,
      ((TargetTriple.get_with_no_rust_installed arch os rumprun).arch.isSome = true ∧
       (TargetTriple.get_with_no_rust_installed arch os rumprun).os.isSome = true ∧
       (TargetTriple.get_with_no_rust_installed arch os rumprun).env.isSome = true)) ∧
    (∀ rumprun, TargetTriple.get_with_no_rust_installed "x86_64" "linux" rumprun =
      { arch := some "x86_64", os := some "unknown-linux", env := some "gnu" }) ∧
    (∀ rumprun,
      (TargetTriple.get_with_no_rust_installed "arm" "linux" rumprun).env = some "gnueabi") ∧
    (∀ rumprun,
      (TargetTriple.get_with_no_rust_installed "armv7" "linux" rumprun).env = some "gnueabihf") :=
  ⟨fun _ _ _ => ⟨rfl, rfl, rfl⟩, fun _ => rfl, fun _ => rfl, fun _ => rfl⟩

/-- C5 (amended): for every OS name other than `linux` and `windows` that
the environment table recognizes, the environment resolves to `gnu`; for
every OS name recognized by neither table, the osFamily resolves to the
literal `unknown` and the environment to the literal `failed`.  However,
`solaris` is recognized by the environment table but not by the OS-family
table, so it is an OS name mapped to osFamily `unknown` whose environment
is `gnu`, not `failed`. -/
theorem C5_non_linux_windows_env_resolution :
    (∀ os arch, os ≠ "linux" → os ≠ "windows" → os ∈ ENV_TABLE_KEYS →
      TargetTriple.env_matching os arch = "gnu") ∧
    (∀ os arch rumprun, os ∉ OS_TABLE_KEYS → os ∉ ENV_TABLE_KEYS →
      TargetTriple.os_matching os rumprun = "unknown" ∧
      TargetTriple.env_matching os arch = "failed") ∧
    (∀ rumprun, TargetTriple.os_matching "solaris" rumprun = "unknown" ∧
      TargetTriple.env_matching "solaris" "x86_64" = "gnu") := by
  refine ⟨?_, ?_, fun _ => ⟨rfl, rfl⟩⟩
  · intro os arch h1 h2 hmem
    simp only [ENV_TABLE_KEYS, List.mem_cons, List.not_mem_nil, or_false] at hmem
    rcases hmem with h | h | h | h | h | h | h | h <;> subst h <;>
      first
        | rfl
        | exact absurd rfl h1
        | exact absurd rfl h2
  · intro os arch rumprun hos henv
    simp only [OS_TABLE_KEYS, List.mem_cons, List.not_mem_nil, or_false,
      not_or] at hos
    simp only [ENV_TABLE_KEYS, List.mem_cons, List.not_mem_nil, or_false,
      not_or] at henv
    constructor
    · unfold TargetTriple.os_matching
      split <;> simp_all
    · unfold TargetTriple.env_matching
      split <;> simp_all

/-- C5 witness: the `gnu` resolution applied at the recognized non-Linux,
non-Windows OS name `macos`, and the `unknown`/`failed` resolution applied
at the entirely unrecognized OS name `haiku`. -/
theorem C5_resolution_witness :
    TargetTriple.env_matching "macos" "x86_64" = "gnu" ∧
    (TargetTriple.os_matching "haiku" false = "unknown" ∧
     TargetTriple.env_matching "haiku" "x86_64" = "failed") :=
  ⟨C5_non_linux_windows_env_resolution.1 "macos" "x86_64" (by decide) (by decide) (by decide),
   C5_non_linux_windows_env_resolution.2.1 "haiku" "x86_64" false (by decide) (by decide)⟩

/-- C5 counterexample: `solaris` refutes the claim's parenthetical — it is
an OS name that the detector maps to osFamily `unknown` while resolving
its environment to `gnu`, not `failed`. -/
theorem C5_counterexample_solaris :
    TargetTriple.os_matching "solaris" false = "unknown" ∧
    TargetTriple.os_matching "solaris" true = "unknown" ∧
    TargetTriple.env_matching "solaris" "x86_64" = "gnu" ∧
    TargetTriple.get_with_no_rust_installed "x86_64" "solaris" false =
      { arch := some "x86_64", os := some "unknown", env := some "gnu" } ∧
    ("gnu" : String) ≠ "failed" := by
  refine ⟨rfl, rfl, rfl, rfl, ?_⟩
  decide

/-- C10: the detector can produce identifiers that fail `is_valid`: on an
entirely unrecognized OS name (here `haiku`) it returns osFamily
`unknown` and environment `failed`, neither of which is in its
enumeration; and the raw compiled-in architecture string `x86` (32-bit
x86) is outside the architecture enumeration, so even a recognized Linux
host with that architecture yields an invalid identifier. -/
theorem C10_detector_can_produce_invalid :
    (TargetTriple.get_with_no_rust_installed "x86" "haiku" false =
      { arch := some "x86", os := some "unknown", env := some "failed" } ∧
     TargetTriple.is_valid (TargetTriple.get_with_no_rust_installed "x86" "haiku" false) = false ∧
     "unknown" ∉ LIST_OSES ∧ "failed" ∉ LIST_ENVS ∧ "x86" ∉ LIST_ARCHS) ∧
    (TargetTriple.get_with_no_rust_installed "x86" "linux" false =
      { arch := some "x86", os := some "unknown-linux", env := some "gnu" } ∧
     TargetTriple.is_valid (TargetTriple.get_with_no_rust_installed "x86" "linux" false) = false) := by
  refine ⟨⟨rfl, ?_, ?_, ?_, ?_⟩, rfl, ?_⟩ <;> decide

/-! ## Claims about validation -/

/-- C6: every identifier whose three fields are all present and drawn from
their enumerations is valid; replacing any single field by a value outside
its enumeration makes the identifier invalid whatever the other two fields
hold; and absent fields never make an identifier invalid — blanking any
field of a valid identifier keeps it valid, and the all-absent identifier
is valid. -/
theorem C6_is_valid_characterization :
    (∀ a o e, a ∈ LIST_ARCHS → o ∈ LIST_OSES → e ∈ LIST_ENVS →
      TargetTriple.is_valid { arch := some a, os := some o, env := some e } = true) ∧
    (∀ a, a ∉ LIST_ARCHS → ∀ os env,
      TargetTriple.is_valid { arch := some a, os := os, env := env } = false) ∧
    (∀ o, o ∉ LIST_OSES → ∀ arch env,
      TargetTriple.is_valid { arch := arch, os := some o, env := env } = false) ∧
    (∀ e, e ∉ LIST_ENVS → ∀ arch os,
      TargetTriple.is_valid { arch := arch, os := os, env := some e } = false) ∧
    TargetTriple.is_valid { arch := none, os := none, env := none } = true ∧
    (∀ t, TargetTriple.is_valid t = true →
      TargetTriple.is_valid { arch := none, os := t.os, env := t.env } = true ∧
      TargetTriple.is_valid { arch := t.arch, os := none, env := t.env } = true ∧
      TargetTriple.is_valid { arch := t.arch, os := t.os, env := none } = true) := by
  refine ⟨?_, ?_, ?_, ?_, by decide, ?_⟩
  · intro a o e ha ho he
    simp [TargetTriple.is_valid, List.contains, ha, ho, he]
  · intro a ha os env
    simp [TargetTriple.is_valid, List.contains, ha]
  · intro o ho arch env
    simp [TargetTriple.is_valid, List.contains, ho]
  · intro e he arch os
    simp [TargetTriple.is_valid, List.contains, he]
  · intro t h
    obtain ⟨a, o, e⟩ := t
    simp_all [TargetTriple.is_valid]

/-- C6 witness: the characterization applied at concrete fields — a fully
enumerated identifier is valid; swapping in the out-of-enumeration values
`x86`, `unknown` or `failed` flips it to invalid; blanking the environment
of a valid identifier keeps it valid. -/
theorem C6_is_valid_witness :
    TargetTriple.is_valid
      { arch := some "x86_64", os := some "unknown-linux", env := some "gnu" } = true ∧
    TargetTriple.is_valid
      { arch := some "x86", os := some "unknown-linux", env := some "gnu" } = false ∧
    TargetTriple.is_valid
      { arch := some "x86_64", os := some "unknown", env := some "gnu" } = false ∧
    TargetTriple.is_valid
      { arch := some "x86_64", os := some "unknown-linux", env := some "failed" } = false ∧
    TargetTriple.is_valid
      { arch := some "x86_64", os := some "unknown-linux", env := none } = true :=
  ⟨C6_is_valid_characterization.1 "x86_64" "unknown-linux" "gnu"
      (by decide) (by decide) (by decide),
   C6_is_valid_characterization.2.1 "x86" (by decide)
      (some "unknown-linux") (some "gnu"),
   C6_is_valid_characterization.2.2.1 "unknown" (by decide)
      (some "x86_64") (some "gnu"),
   C6_is_valid_characterization.2.2.2.1 "failed" (by decide)
      (some "x86_64") (some "unknown-linux"),
   (C6_is_valid_characterization.2.2.2.2.2
      { arch := some "x86_64", os := some "unknown-linux", env := some "gnu" }
      (by decide)).2.2⟩

/-! ## Claims about the install pipeline -/

/-- C1 (amended): for every transport-level failure of the request itself
(the fetch resolves to `Err`), the run sets the terminal status
"Failed to download" and returns cleanly — no panic, and no extraction or
spawn effect is attempted.  (A non-2xx response is not detected at this
stage; see the counterexample.) -/
theorem C1_transport_failure_fails_cleanly (triple : TargetTriple) (version : String)
    (env : PipelineEnv) (h : env.fetch = .error ()) :
    (install_rust triple version env).outcome = .finished "Failed to download" ∧
    "Failed to download" ∈ (install_rust triple version env).messages ∧
    (install_rust triple version env).outcome ≠ .panicked ∧
    (∀ d, Effect.unpacked d ∉ (install_rust triple version env).effects) ∧
    (∀ p, Effect.spawned p ∉ (install_rust triple version env).effects) := by
  refine ⟨?_, ?_, ?_, ?_, ?_⟩ <;> simp [install_rust, h]

/-- C1 witness: the clean-failure theorem applied to a concrete host
triple, version and failing fetch. -/
theorem C1_transport_failure_witness :
    (install_rust { arch := some "x86_64", os := some "unknown-linux", env := some "gnu" }
        "1.76.0"
        { fetch := .error (), unpack := .ok (), spawn := .ok () }).outcome =
      .finished "Failed to download" :=
  (C1_transport_failure_fails_cleanly
    { arch := some "x86_64", os := some "unknown-linux", env := some "gnu" } "1.76.0"
    { fetch := .error (), unpack := .ok (), spawn := .ok () } rfl).1

/-- C1 counterexample: a non-success (404) response is *not* a download
failure to this pipeline — the fetch resolves to `Ok`, the body (not a
valid gzip'd tar, so unpacking fails) flows on, and the run panics at the
unpack `unwrap` instead of reaching `Failed` with a "download failed"
status. -/
theorem C1_counterexample_non_2xx_panics :
    ¬ (200 ≤ 404 ∧ 404 ≤ 299) ∧
    (install_rust { arch := some "x86_64", os := some "unknown-linux", env := some "gnu" }
        "1.76.0"
        { fetch := .ok { status := 404, bytes := .ok [] },
          unpack := .error (), spawn := .ok () }).outcome = .panicked ∧
    "Failed to download" ∉
      (install_rust { arch := some "x86_64", os := some "unknown-linux", env := some "gnu" }
        "1.76.0"
        { fetch := .ok { status := 404, bytes := .ok [] },
          unpack := .error (), spawn := .ok () }).messages := by
  refine ⟨by decide, rfl, ?_⟩
  decide

/-- C7: the spawned installer path embeds the version-and-triple directory
name twice — it is exactly `unpack_dir/unpack_dir/install.sh`; after a
successful fetch, body read and unpack, the spawn is attempted at exactly
that path, a spawn error yields the terminal "Failed to run install.sh"
status, and a successful spawn yields the terminal "Done" status (the
model carries no installer exit status at all — the child is not
awaited). -/
theorem C7_installer_path_and_spawn_handling :
    (∀ version target, installer_path version target =
      unpack_dir version target ++ "/" ++ unpack_dir version target ++ "/install.sh") ∧
    (∀ triple version env response b, env.fetch = .ok response →
      response.bytes = .ok b → env.unpack = .ok () →
      Effect.spawned (installer_path version triple.str) ∈
        (install_rust triple version env).effects ∧
      (env.spawn = .error () →
        (install_rust triple version env).outcome = .finished "Failed to run install.sh" ∧
        "Failed to run install.sh" ∈ (install_rust triple version env).messages) ∧
      (env.spawn = .ok () →
        (install_rust triple version env).outcome = .finished "Done" ∧
        "Done" ∈ (install_rust triple version env).messages)) := by
  constructor
  · intro v t
    apply String.ext
    simp [installer_path, unpack_dir, List.append_assoc]
  · intro triple version env response b hf hb hu
    refine ⟨?_, fun hs => ?_, fun hs => ?_⟩
    · cases hs : env.spawn with
      | error u => simp [install_rust, hf, hb, hu, hs]
      | ok u => simp [install_rust, hf, hb, hu, hs]
    · constructor <;> simp [install_rust, hf, hb, hu, hs]
    · constructor <;> simp [install_rust, hf, hb, hu, hs]

/-- C7 witness: the doubled path at a concrete version and triple, and the
spawn-failure status on a run whose fetch, body read and unpack succeed
but whose spawn fails. -/
theorem C7_installer_path_witness :
    installer_path "1.76.0" "x86_64-unknown-linux-gnu" =
      unpack_dir "1.76.0" "x86_64-unknown-linux-gnu" ++ "/" ++
        unpack_dir "1.76.0" "x86_64-unknown-linux-gnu" ++ "/install.sh" ∧
    (install_rust { arch := some "x86_64", os := some "unknown-linux", env := some "gnu" }
        "1.76.0"
        { fetch := .ok { status := 200, bytes := .ok [] },
          unpack := .ok (), spawn := .error () }).outcome =
      .finished "Failed to run install.sh" :=
  ⟨C7_installer_path_and_spawn_handling.1 "1.76.0" "x86_64-unknown-linux-gnu",
   ((C7_installer_path_and_spawn_handling.2
      { arch := some "x86_64", os := some "unknown-linux", env := some "gnu" } "1.76.0"
      { fetch := .ok { status := 200, bytes := .ok [] },
        unpack := .ok (), spawn := .error () }
      { status := 200, bytes := .ok [] } [] rfl rfl rfl).2.1 rfl).1⟩

/-- C8: when the fetch and body read succeed but tar extraction fails, the
run terminates in a panic (the `unwrap` on `unpack`), not in a reported
`Failed` state — unlike a transport failure or a spawn failure, after
either of which the run never panics. -/
theorem C8_unpack_failure_panics :
    (∀ triple version env response b, env.fetch = .ok response →
      response.bytes = .ok b → env.unpack = .error () →
      (install_rust triple version env).outcome = .panicked ∧
      (∀ msg, (install_rust triple version env).outcome ≠ .finished msg)) ∧
    (∀ triple version env, env.fetch = .error () →
      (install_rust triple version env).outcome ≠ .panicked) ∧
    (∀ triple version env response b, env.fetch = .ok response →
      response.bytes = .ok b → env.unpack = .ok () →
      (install_rust triple version env).outcome ≠ .panicked) := by
  refine ⟨?_, ?_, ?_⟩
  · intro triple version env response b hf hb hu
    constructor <;> simp [install_rust, hf, hb, hu]
  · intro triple version env hf
    simp [install_rust, hf]
  · intro triple version env response b hf hb hu
    cases hs : env.spawn with
    | error u => simp [install_rust, hf, hb, hu, hs]
    | ok u => simp [install_rust, hf, hb, hu, hs]

/-- C8 witness: a concrete run whose fetch and body read succeed but whose
extraction fails, ending in a panic. -/
theorem C8_unpack_failure_witness :
    (install_rust { arch := some "x86_64", os := some "unknown-linux", env := some "gnu" }
        "1.76.0"
        { fetch := .ok { status := 200, bytes := .ok [] },
          unpack := .error (), spawn := .ok () }).outcome = .panicked :=
  (C8_unpack_failure_panics.1
    { arch := some "x86_64", os := some "unknown-linux", env := some "gnu" } "1.76.0"
    { fetch := .ok { status := 200, bytes := .ok [] },
      unpack := .error (), spawn := .ok () }
    { status := 200, bytes := .ok [] } [] rfl rfl rfl).1

end GetRust
